import Mathlib

/-!
Verification of the grid-geometry engine of `gtkgridview.c`.

The development shallowly embeds the layout-relevant parts of the C file:
the augmented interval index over item runs (`Cell`, `cell_augment`), the
two geometry queries (`gtk_grid_view_get_cell_at_y`,
`gtk_grid_view_get_size_at_position`), the column solver
(`gtk_grid_view_compute_n_columns`), the row-height estimator
(`gtk_grid_view_get_unknown_row_size`) and the scroll-anchor callback
(`gtk_grid_view_adjustment_value_changed_cb`).

Machine integers: `guint` values are modelled as `Nat`; where C unsigned
subtraction can wrap, the wrap is explicit via `usub` (mod 2^32).  `int`
values are modelled as `Int`.  `double` values are modelled as `ℚ`, which
agrees with IEEE doubles on all the (small, exactly representable)
values exercised here.
-/

namespace GridView

/-- 2^32, the modulus of C `guint` arithmetic. -/
def U32 : Nat := 4294967296

/-- C `guint` subtraction `a - b` with explicit wraparound (operands are
assumed `< U32`, as every `guint` value is). -/
def usub (a b : Nat) : Nat := (a + (U32 - b % U32)) % U32

/-- A run node of the interval index (`struct _Cell`): `n_items` items
covered (from the manager base struct) and `size`, the total pixel size
counting only cells in the first column. -/
structure Cell where
  n_items : Nat
  size : Nat

/-- The rb-tree of runs, abstracted to its binary-tree shape.  The C code
stores the tree inside `GtkListItemManager`'s `GtkRbTree`; the descent
loops of both geometry queries only use the left/right structure and the
per-subtree augments, which this captures. -/
inductive CellTree where
  | nil : CellTree
  | node (l : CellTree) (c : Cell) (r : CellTree) : CellTree

/-- Sum of `size` over a subtree: the value the C code reads from
`CellAugment.size` of that subtree's root (kept up to date by
`cell_augment`, see `augment_stored` below). -/
def augSize : CellTree → Nat
  | .nil => 0
  | .node l c r => augSize l + c.size + augSize r

/-- Sum of `n_items` over a subtree: the value the C code reads from
`CellAugment.parent.n_items`.  Modelled from the spec: the summary
`item_count` maintained by `gtk_list_item_manager_augment_node` (that
function lives in `gtklistitemmanager.c`, which is not part of this
repository slice); the spec states it caches the sum of `item_count`
over the subtree. -/
def augItems : CellTree → Nat
  | .nil => 0
  | .node l c r => augItems l + c.n_items + augItems r

/-- The stored augment of one node (`struct _CellAugment`). -/
structure CellAugment where
  n_items : Nat
  size : Nat

/-- Modelled from the spec: `gtk_list_item_manager_augment_node` of the
item manager (missing from this repository slice) combines the node's
`n_items` with both children's summaries. -/
def gtk_list_item_manager_augment_node (c : Cell) (l r : Option CellAugment) : CellAugment :=
  { n_items := c.n_items + (l.map (fun a => a.n_items)).getD 0 + (r.map (fun a => a.n_items)).getD 0
    size := 0 }

/-- `cell_augment` from the source: first delegate to the manager's
augment, then set `aug->size` to `cell->size`, adding the left child's
and the right child's stored `size` when present. -/
def cell_augment (c : Cell) (l r : Option CellAugment) : CellAugment :=
  let aug := gtk_list_item_manager_augment_node c l r
  let s := c.size
  let s := match l with
    | some la => s + la.size
    | none => s
  let s := match r with
    | some ra => s + ra.size
    | none => s
  { aug with size := s }

/-- A cell tree whose nodes carry their stored augment. -/
inductive AugTree where
  | nil : AugTree
  | node (l : AugTree) (c : Cell) (aug : CellAugment) (r : AugTree) : AugTree

/-- The stored augment of the root of an augmented subtree, as the C code
reads it through `gtk_rb_tree_get_augment` (absent child = none). -/
def AugTree.topAug : AugTree → Option CellAugment
  | .nil => none
  | .node _ _ aug _ => some aug

/-- Stored summary `size` of a subtree root, `0` for an empty subtree. -/
def AugTree.summarySize : AugTree → Nat
  | .nil => 0
  | .node _ _ aug _ => aug.size

/-- Bottom-up re-augmentation: recompute every node's stored augment with
`cell_augment`, children first — the walk `gtk_rb_tree_node_mark_dirty`
schedules after a node's own fields or a child pointer changed. -/
def augmentTree : CellTree → AugTree
  | .nil => .nil
  | .node l c r =>
      let la := augmentTree l
      let ra := augmentTree r
      .node la c (cell_augment c la.topAug ra.topAug) ra

/-- The claimed per-node invariant: each stored summary `size` equals the
node's own `size` combined with both children's stored summaries. -/
def sizeInvariant : AugTree → Prop
  | .nil => True
  | .node l c aug r =>
      aug.size = c.size + l.summarySize + r.summarySize ∧ sizeInvariant l ∧ sizeInvariant r

/-- In-order list of the runs' `size` fields. -/
def inorderSizes : CellTree → List Nat
  | .nil => []
  | .node l c r => inorderSizes l ++ c.size :: inorderSizes r

/-- Stored summary `size` at the root after re-augmentation. -/
def rootSummarySize (t : CellTree) : Nat := (augmentTree t).summarySize

/-- `cell_set_size`: overwrite the `size` of the run at the given
left/right path (no-op on a missing path).  In the source the write is
followed by `gtk_rb_tree_node_mark_dirty`, i.e. re-augmentation; in this
model re-augmentation is `augmentTree`, applied when the summaries are
read. -/
def cell_set_size : CellTree → List Bool → Nat → CellTree
  | .nil, _, _ => .nil
  | .node l c r, [], sz => .node l { c with size := sz } r
  | .node l c r, true :: p, sz => .node (cell_set_size l p sz) c r
  | .node l c r, false :: p, sz => .node l c (cell_set_size r p sz)

/-- A whole sequence of run-size mutations. -/
def applyMutations (t : CellTree) (muts : List (List Bool × Nat)) : CellTree :=
  muts.foldl (fun acc m => cell_set_size acc m.1 m.2) t

theorem summarySize_augmentTree (t : CellTree) : (augmentTree t).summarySize = augSize t := by
  induction t with
  | nil => rfl
  | node l c r ihl ihr =>
      simp only [augmentTree, AugTree.summarySize, cell_augment,
        gtk_list_item_manager_augment_node, augSize]
      cases hl : augmentTree l <;> cases hr : augmentTree r <;>
        simp [AugTree.topAug, ← ihl, ← ihr, hl, hr, AugTree.summarySize] <;> omega

theorem sizeInvariant_augmentTree (t : CellTree) : sizeInvariant (augmentTree t) := by
  induction t with
  | nil => trivial
  | node l c r ihl ihr =>
      refine ⟨?_, ihl, ihr⟩
      simp only [cell_augment, gtk_list_item_manager_augment_node]
      cases hl : augmentTree l <;> cases hr : augmentTree r <;>
        simp [AugTree.topAug, AugTree.summarySize]

theorem augSize_eq_sum_inorder (t : CellTree) : augSize t = (inorderSizes t).sum := by
  induction t with
  | nil => rfl
  | node l c r ihl ihr => simp [augSize, inorderSizes, ihl, ihr]; omega

/-- C1: for every node of the interval index, the augmented summary size
equals the node's own size combined with the summaries of both children,
and after every sequence of run-size mutations (`cell_set_size` followed
by re-augmentation) the root summary's pixel size equals the sum of all
runs' pixel sizes. -/
theorem C1_augment_root_sum (t : CellTree) (muts : List (List Bool × Nat)) :
    sizeInvariant (augmentTree (applyMutations t muts)) ∧
    rootSummarySize (applyMutations t muts) =
      (inorderSizes (applyMutations t muts)).sum := by
  refine ⟨sizeInvariant_augmentTree _, ?_⟩
  rw [rootSummarySize, summarySize_augmentTree, augSize_eq_sum_inorder]

/-- Closed instance of `C1_augment_root_sum` on a concrete tree and a
concrete mutation sequence. -/
theorem C1_augment_root_sum_witness :
    sizeInvariant (augmentTree (applyMutations
      (.node (.node .nil ⟨2, 10⟩ .nil) ⟨1, 7⟩ (.node .nil ⟨6, 10⟩ .nil))
      [([true], 5), ([], 9)])) ∧
    rootSummarySize (applyMutations
      (.node (.node .nil ⟨2, 10⟩ .nil) ⟨1, 7⟩ (.node .nil ⟨6, 10⟩ .nil))
      [([true], 5), ([], 9)]) =
      (inorderSizes (applyMutations
        (.node (.node .nil ⟨2, 10⟩ .nil) ⟨1, 7⟩ (.node .nil ⟨6, 10⟩ .nil))
        [([true], 5), ([], 9)])).sum :=
  C1_augment_root_sum _ _

/-- The scrollable policy enum as far as the column solver consults it
(`GTK_SCROLL_MINIMUM` versus everything else, i.e. `GTK_SCROLL_NATURAL`). -/
inductive GtkScrollablePolicy where
  | minimum : GtkScrollablePolicy
  | natural : GtkScrollablePolicy
deriving DecidableEq

/-- glib's `CLAMP(x, low, high)` macro:
`(x > high) ? high : ((x < low) ? low : x)`. -/
def cCLAMP (x lo hi : Nat) : Nat := if x > hi then hi else if x < lo then lo else x

/-- The divisor the column solver divides `for_size` by:
`MAX (1, min)` under `GTK_SCROLL_MINIMUM`, else `MAX (1, nat)`
(`min`/`nat` are C `int`s, the division result is `guint`). -/
def columnDivisor (policy : GtkScrollablePolicy) (mn nt : Int) : Nat :=
  match policy with
  | .minimum => (max 1 mn).toNat
  | .natural => (max 1 nt).toNat

/-- `gtk_grid_view_compute_n_columns`: integer division of `for_size` by
the guarded measured size, clamped into `[min_columns, max_columns]`.
`policy` is `self->scroll_policy[OPPOSITE_ORIENTATION (orientation)]`. -/
def gtk_grid_view_compute_n_columns (policy : GtkScrollablePolicy)
    (min_columns max_columns for_size : Nat) (mn nt : Int) : Nat :=
  cCLAMP (for_size / columnDivisor policy mn nt) min_columns max_columns

/-- The column width set by `gtk_grid_view_size_allocate` step 1:
`column_width = width / n_columns` (C `int / guint`, a truncated
integer quotient, stored in a `double`) followed by
`column_width = MAX (column_width, col_min)`. -/
def gtk_grid_view_column_width (for_size n_columns : Nat) (col_min : Int) : Int :=
  max ((for_size / n_columns : Nat) : Int) col_min

/-- Written from the spec sentence: `n_columns = clamp(available_size /
(size_policy == MINIMIZE ? max(1,measured_min) : max(1,measured_nat)),
min_columns, max_columns)`, with the mathematical clamp. -/
def spec_compute_columns (policy : GtkScrollablePolicy)
    (min_columns max_columns for_size : Nat) (mn nt : Int) : Nat :=
  min (max (for_size /
      (match policy with
        | .minimum => (max 1 mn).toNat
        | .natural => (max 1 nt).toNat)) min_columns) max_columns

/-- C3: the column solver computes
`clamp(available / guarded measured size, min_columns, max_columns)` and
`column_width = max(available / n_columns, measured_min)`; on the
spec's concrete example (`available=100, min=20, nat=34`, bounds
`[1,7]`, policy NATURAL) it yields `n_columns = 2`, `column_width = 50`. -/
theorem C3_column_solver (policy : GtkScrollablePolicy)
    (min_columns max_columns for_size : Nat) (mn nt : Int)
    (h : min_columns ≤ max_columns) :
    gtk_grid_view_compute_n_columns policy min_columns max_columns for_size mn nt =
      spec_compute_columns policy min_columns max_columns for_size mn nt ∧
    (∀ fs n cmin, gtk_grid_view_column_width fs n cmin =
      max ((fs / n : Nat) : Int) cmin) ∧
    gtk_grid_view_compute_n_columns .natural 1 7 100 20 34 = 2 ∧
    gtk_grid_view_column_width 100 2 20 = 50 := by
  refine ⟨?_, fun _ _ _ => rfl, by decide, by decide⟩
  simp only [gtk_grid_view_compute_n_columns, spec_compute_columns, cCLAMP, columnDivisor]
  cases policy <;>
    simp only [Nat.min_def, Nat.max_def] <;> split_ifs <;> omega

/-- Closed instance of `C3_column_solver` at the spec's example. -/
theorem C3_column_solver_witness :
    gtk_grid_view_compute_n_columns .natural 1 7 100 20 34 =
      spec_compute_columns .natural 1 7 100 20 34 ∧
    (∀ fs n cmin, gtk_grid_view_column_width fs n cmin =
      max ((fs / n : Nat) : Int) cmin) ∧
    gtk_grid_view_compute_n_columns .natural 1 7 100 20 34 = 2 ∧
    gtk_grid_view_column_width 100 2 20 = 50 :=
  C3_column_solver .natural 1 7 100 20 34 (by decide)

/-- Counterexample to C10 as stated: with `min_columns = 10 >
max_columns = 7` (a reachable configuration, the property setters do not
cross-clamp) and `for_size = 0`, the solver returns `10`, which is above
`max_columns`. -/
theorem C10_counterexample :
    gtk_grid_view_compute_n_columns .natural 10 7 0 0 0 = 10 ∧
    ¬ gtk_grid_view_compute_n_columns .natural 10 7 0 0 0 ≤ 7 := by
  decide

/-- C10 (amended): the solver is total — its divisor `max(1, measured)`
is always at least 1, so no division by zero occurs — and whenever
`min_columns ≤ max_columns` the clamped result lies in
`[min_columns, max_columns]`. -/
theorem C10_n_columns_bounds (policy : GtkScrollablePolicy)
    (min_columns max_columns for_size : Nat) (mn nt : Int)
    (h : min_columns ≤ max_columns) :
    1 ≤ columnDivisor policy mn nt ∧
    min_columns ≤ gtk_grid_view_compute_n_columns policy min_columns max_columns for_size mn nt ∧
    gtk_grid_view_compute_n_columns policy min_columns max_columns for_size mn nt ≤ max_columns := by
  refine ⟨?_, ?_, ?_⟩ <;>
    simp only [gtk_grid_view_compute_n_columns, cCLAMP, columnDivisor] <;>
    cases policy <;> simp only [] <;> (try split_ifs) <;> omega

/-- Closed instance of `C10_n_columns_bounds`. -/
theorem C10_n_columns_bounds_witness :
    1 ≤ columnDivisor .natural 20 34 ∧
    1 ≤ gtk_grid_view_compute_n_columns .natural 1 7 100 20 34 ∧
    gtk_grid_view_compute_n_columns .natural 1 7 100 20 34 ≤ 7 :=
  C10_n_columns_bounds .natural 1 7 100 20 34 (by decide)

/-- `compare_ints`, the qsort comparator: `*first - *second`. -/
def compare_ints (a b : Int) : Int := a - b

/-- The ordering induced by `compare_ints` under qsort's contract: `a`
sorts no later than `b` iff the comparator is non-positive. -/
def cmpLe (a b : Int) : Prop := compare_ints a b ≤ 0

instance : DecidableRel cmpLe := fun a b => Int.decLe _ _

instance : IsTotal Int cmpLe :=
  ⟨fun a b => by unfold cmpLe compare_ints; omega⟩

instance : IsTrans Int cmpLe :=
  ⟨fun a b c h1 h2 => by unfold cmpLe compare_ints at *; omega⟩

instance : IsAntisymm Int cmpLe :=
  ⟨fun a b h1 h2 => by unfold cmpLe compare_ints at *; omega⟩

/-- `gtk_grid_view_get_unknown_row_size`: guard
`g_return_val_if_fail (heights->len > 0, 0)`, then `g_array_sort` with
`compare_ints` (ascending) and return the element at index `len / 2`. -/
def gtk_grid_view_get_unknown_row_size (heights : List Int) : Int :=
  if heights.length = 0 then 0
  else (List.insertionSort cmpLe heights).getD (heights.length / 2) 0

/-- C4: on every non-empty multiset of measured row heights the
estimator returns the element at index `len / 2` of the sorted heights
(stated against any sorted rearrangement `l` of the input, which is
unique); in particular it returns `4` for `[4, 4, 4, 10]` and `5` for
`[5]`. -/
theorem C4_median_estimator (hs : List Int) (l : List Int)
    (hne : hs ≠ []) (hperm : hs.Perm l) (hsorted : l.Sorted cmpLe) :
    gtk_grid_view_get_unknown_row_size hs = l.getD (hs.length / 2) 0 ∧
    gtk_grid_view_get_unknown_row_size [4, 4, 4, 10] = 4 ∧
    gtk_grid_view_get_unknown_row_size [5] = 5 := by
  refine ⟨?_, by decide, by decide⟩
  have hlen : hs.length ≠ 0 := by simpa using fun h => hne (List.length_eq_zero.mp h)
  have heq : List.insertionSort cmpLe hs = l :=
    List.eq_of_perm_of_sorted ((List.perm_insertionSort cmpLe hs).trans hperm)
      (List.sorted_insertionSort cmpLe hs) hsorted
  rw [gtk_grid_view_get_unknown_row_size, if_neg hlen, heq]

/-- Closed instance of `C4_median_estimator` at `[4, 4, 4, 10]`. -/
theorem C4_median_estimator_witness :
    gtk_grid_view_get_unknown_row_size [4, 4, 4, 10] =
      List.getD [4, 4, 4, 10] ([4, 4, 4, 10].length / 2) 0 ∧
    gtk_grid_view_get_unknown_row_size [4, 4, 4, 10] = 4 ∧
    gtk_grid_view_get_unknown_row_size [5] = 5 :=
  C4_median_estimator [4, 4, 4, 10] [4, 4, 4, 10] (by decide)
    (List.Perm.refl _) (by decide)

/-- The write `self->unknown_row_height =
gtk_grid_view_get_unknown_row_size (self, heights);` performed by step 3
of `gtk_grid_view_size_allocate` — the new field value is whatever the
estimator returns, the previous value `prev` is not consulted. -/
def sizeAllocateUnknownRowHeight (prev : Int) (heights : List Int) : Int :=
  gtk_grid_view_get_unknown_row_size heights

/-- Counterexample to C5 as stated: with an empty heights multiset the
layout pass replaces a previously stored `unknown_row_height` of `42`
with `0` (the `g_return_val_if_fail` fallback) instead of preserving it. -/
theorem C5_counterexample : ¬ sizeAllocateUnknownRowHeight 42 [] = 42 := by
  decide

/-- C5 (amended): when zero rows were realized this pass (the heights
multiset is empty), the layout pass stores `0` — the estimator guard's
fallback value — as `unknown_row_height`, replacing the previous value
rather than preserving it. -/
theorem C5_empty_heights_stores_zero (prev : Int) :
    sizeAllocateUnknownRowHeight prev [] = 0 := rfl

/-- Closed instance of `C5_empty_heights_stores_zero`. -/
theorem C5_empty_heights_stores_zero_witness :
    sizeAllocateUnknownRowHeight 42 [] = 0 :=
  C5_empty_heights_stores_zero 42

/-- The descent loop of `gtk_grid_view_get_cell_at_y`: root-to-leaf walk
steered by the left subtree's augmented size.  Returns the cell whose
pixel range contains `y`, the number of items before it and the offset
of `y` into the cell, or `none` when `y` falls past every cell.  In C
the `y < aug->size` / `y < cell->size` comparisons promote the `int`
`y` to `guint`; the model uses `Int` comparisons, which coincide for
`y ≥ 0` (and for `y < 0` both sides yield the `none` outcome). -/
def getCellLoop : CellTree → Int → Nat → Option (Cell × Nat × Int)
  | .nil, _, _ => none
  | .node l c r, y, pos =>
      if y < (augSize l : Int) then getCellLoop l y pos
      else
        let y := y - (augSize l : Int)
        let pos := pos + augItems l
        if y < (c.size : Int) then some (c, pos, y)
        else getCellLoop r (y - (c.size : Int)) (pos + c.n_items)

/-- `gtk_grid_view_get_cell_at_y`: descend to the covering cell, then
compute the reported `(position, offset, size)` triple.  `N` is
`self->n_columns`, `u` is `self->unknown_row_height`.  The `guint`
subtractions `n_items -= skip` and `n_items - 1` use the wrapping
`usub`; `cell->size - no_widget_rows * unknown_row_height` is produced
as an `int` out-parameter and modelled on `Int` (no wrap occurs on the
value ranges exercised here). -/
def gtk_grid_view_get_cell_at_y (N u : Nat) (t : CellTree) (y : Int) :
    Option (Nat × Int × Int) :=
  match getCellLoop t y 0 with
  | none => none
  | some (c, pos, y) =>
      let n_items := c.n_items
      -- skip remaining items at end of row
      let (n_items, pos) :=
        if pos % N ≠ 0 then
          let skip := pos - pos % N
          (usub n_items skip, pos + skip)
        else (n_items, pos)
      -- skip all the rows this index does not go into
      let no_widget_rows := usub n_items 1 / N
      let skip := min (y.toNat / u) no_widget_rows
      let y := y - (skip * u : Nat)
      let pos := pos + N * skip
      let size : Int :=
        if skip < no_widget_rows then (u : Int)
        else (c.size : Int) - (no_widget_rows * u : Nat)
      some (pos, y, size)

/-- The descent loop of `gtk_grid_view_get_size_at_position`: walk
steered by the left subtree's augmented item count, accumulating pixel
offset `y`.  Returns the covering cell, the position relative to the
cell's first item and the accumulated offset, or `none` when the
position falls past every cell. -/
def getSizeLoop : CellTree → Nat → Nat → Option (Cell × Nat × Nat)
  | .nil, _, _ => none
  | .node l c r, position, y =>
      if position < augItems l then getSizeLoop l position y
      else
        let position := position - augItems l
        let y := y + augSize l
        if position < c.n_items then some (c, position, y)
        else getSizeLoop r (position - c.n_items) (y + c.size)

/-- `gtk_grid_view_get_size_at_position`: snap the queried position down
to its row's first column (`position -= position % self->n_columns`),
descend, then compute the reported `(offset, size)` pair, or `none`
(`FALSE` with zeroed out-parameters) when the snapped position falls
past every cell. -/
def gtk_grid_view_get_size_at_position (N u : Nat) (t : CellTree) (position : Nat) :
    Option (Int × Int) :=
  let position := position - position % N
  match getSizeLoop t position 0 with
  | none => none
  | some (c, position, y) =>
      let n_items := c.n_items
      -- skip remaining items at end of row
      let (n_items, position) :=
        if position % N ≠ 0 then
          let skip := position % N
          (usub n_items skip, position - skip)
        else (n_items, position)
      -- skip all the rows this index does not go into
      let skip := position / N
      let n_items := usub n_items (skip * N)
      let y := y + skip * u
      let size : Int :=
        if n_items > N then (u : Int)
        else (c.size : Int) - (skip * u : Nat)
      some ((y : Int), size)

/-- The two-run index used as a counterexample: a run of 2 items and
10px followed by a run of 6 items and 10px; with `n_columns = 4` this is
8 items in 2 rows of height 10, with the second run starting mid-row. -/
def tree2 : CellTree := .node .nil ⟨2, 10⟩ (.node .nil ⟨6, 10⟩ .nil)

/-- A single run of 5 items, 20px (2 rows at `n_columns = 4`,
`unknown_row_height = 10`). -/
def tree1 : CellTree := .node .nil ⟨5, 20⟩ .nil

/-- C2 fails on the code: with `n_columns = 4`, `unknown_row_height =
10` and the 8-item index `tree2`, the valid position `p = 5` has offset
10 (its row, items 4..7, spans pixels 10..20), but
`gtk_grid_view_get_cell_at_y` at offset 10 reports position 2, which
lies in row 0, not in `p`'s row 1: the round trip does not return a
run position covering `p`'s row.  (The head-skip in the source,
`skip = pos - pos % self->n_columns`, leaves `pos` mid-row, contradicting
the function's own doc comment, which promises the leftmost position of
the row at the queried offset.) -/
theorem C2_roundtrip_failure :
    augItems tree2 = 8 ∧ 5 < 8 ∧
    gtk_grid_view_get_size_at_position 4 10 tree2 5 = some (10, 10) ∧
    gtk_grid_view_get_cell_at_y 4 10 tree2 10 = some (2, 0, 10) ∧
    ¬ 2 / 4 = 5 / 4 := by
  decide

/-- C6 fails on the code: with the 5-item index `tree1` and `n_columns =
4`, the out-of-range position 6 (`6 > 5 = ` item count) is snapped down
to 4, which is in range, so `gtk_grid_view_get_size_at_position` reports
the last row's geometry (`TRUE`, offset 10, size 10) instead of the
not-found outcome its own doc comment promises for positions larger
than the number of items. -/
theorem C6_out_of_range_position_found :
    augItems tree1 = 5 ∧ 5 < 6 ∧
    gtk_grid_view_get_size_at_position 4 10 tree1 6 = some (10, 10) ∧
    gtk_grid_view_get_size_at_position 4 10 tree1 6 ≠ none := by
  decide

/-- C7 fails on the code: querying offset 15 on `tree2` (`n_columns =
4`, `unknown_row_height = 10`) reports position 2, which is not a
multiple of `n_columns` — not the first column of the row containing
the offset.  (The snap half of the claim does hold:
`gtk_grid_view_get_size_at_position` starts with
`position -= position % self->n_columns`.) -/
theorem C7_position_not_row_aligned :
    gtk_grid_view_get_cell_at_y 4 10 tree2 15 = some (2, 5, 10) ∧
    ¬ 2 % 4 = 0 := by
  decide

/-- The externally visible calls `gtk_grid_view_update_adjustment_with_values`
makes against the scroll-position store, in program order:
`g_signal_handlers_block_by_func`, `gtk_adjustment_configure`,
`g_signal_handlers_unblock_by_func`. -/
inductive AdjEvent where
  | block : AdjEvent
  | configure (value upper page_size : Int) : AdjEvent
  | unblock : AdjEvent
deriving DecidableEq

/-- `gtk_grid_view_update_adjustment_with_values`: clamp (`upper = MAX
(upper, page_size)`, `value` into `[0, upper - page_size]`), then block
the handler, configure the store (pushing the flipped value on flipped
axes — the ternary's assignment also updates the local `value`), then
unblock.  Returns the event trace and the function's return value. -/
def gtk_grid_view_update_adjustment_with_values (flipped : Bool)
    (value upper page_size : Int) : List AdjEvent × Int :=
  let upper := max upper page_size
  let value := max 0 value
  let value := min value (upper - page_size)
  let value := if flipped then upper - page_size - value else value
  ([.block, .configure value upper page_size, .unblock], value)

/-- `true` iff some `configure` event in the trace happens while the
handler's block depth is zero, i.e. while change notification to
`gtk_grid_view_adjustment_value_changed_cb` is not suppressed — the
condition under which GTK would synchronously re-enter the handler. -/
def configuresUnsuppressed : List AdjEvent → Nat → Bool
  | [], _ => false
  | .block :: es, d => configuresUnsuppressed es (d + 1)
  | .unblock :: es, d => configuresUnsuppressed es (d - 1)
  | .configure _ _ _ :: es, d => d = 0 || configuresUnsuppressed es d

/-- C9: every self-triggered store write happens with the controller's
own handler suppressed — no `configure` is ever emitted at block depth
zero, and on every path the suppression is acquired before the push
(the trace starts with `block`) and released after it (the trace ends
with `unblock`). -/
theorem C9_push_suppresses_handler (flipped : Bool) (value upper page_size : Int) :
    configuresUnsuppressed
      (gtk_grid_view_update_adjustment_with_values flipped value upper page_size).1 0 = false ∧
    (gtk_grid_view_update_adjustment_with_values flipped value upper page_size).1.head? =
      some .block ∧
    (gtk_grid_view_update_adjustment_with_values flipped value upper page_size).1.getLast? =
      some .unblock := by
  refine ⟨rfl, rfl, rfl⟩

/-- Closed instance of `C9_push_suppresses_handler`. -/
theorem C9_push_suppresses_handler_witness :
    configuresUnsuppressed
      (gtk_grid_view_update_adjustment_with_values false 30 200 50).1 0 = false ∧
    (gtk_grid_view_update_adjustment_with_values false 30 200 50).1.head? = some .block ∧
    (gtk_grid_view_update_adjustment_with_values false 30 200 50).1.getLast? = some .unblock :=
  C9_push_suppresses_handler false 30 200 50

/-- C's `round` (nearest integer, halves away from zero), applied to the
`double` expressions of the callback (modelled on `ℚ`). -/
def cround (q : ℚ) : Int := if 0 ≤ q then ⌊q + 1 / 2⌋ else -⌊-q + 1 / 2⌋

/-- The anchor tuple `gtk_grid_view_set_anchor` receives at the end of
the value-changed callback. -/
structure Anchor where
  pos : Nat
  xalign : ℚ
  xstart : Bool
  yalign : ℚ
  ystart : Bool

/-- Everything `gtk_grid_view_adjustment_value_changed_cb` reads: which
adjustment changed (`isPrimary`: it is `self->adjustment
[self->orientation]`), whether that axis is flipped, the changed
store's `value` / `upper` / `page_size`, the tracked anchor, the model
size, the viewport state, the interval index, the stored anchor
alignment, and the opposite-axis store's raw `value` and `page_size`
(consulted only by the clamp branch). -/
structure CbState where
  isPrimary : Bool
  flipped : Bool
  value0 : Int
  total_size : Int
  page_size : Int
  anchor_pos : Nat
  n_items : Nat
  n_columns : Nat
  unknown_row_height : Nat
  column_width : ℚ
  tree : CellTree
  anchor_xalign : ℚ
  anchor_xstart : Bool
  anchor_yalign : ℚ
  anchor_ystart : Bool
  opp_value : ℚ
  opp_page_size : ℚ

/-- The identical four-way ladder both branches of the callback use to
pick the anchored edge of the covering cell (`top > 0 && bottom <
page_size` / `top > 0` / `bottom < page_size` / whole-page case). -/
def startLadder (top bottom from_start page_size : Int) : Bool :=
  if 0 < top ∧ bottom < page_size then decide (from_start - top ≤ bottom - from_start)
  else if 0 < top then true
  else if bottom < page_size then false
  else decide (from_start - top ≤ bottom - from_start)

/-- The per-axis anchor derivation of
`gtk_grid_view_adjustment_value_changed_cb` (everything before the
trailing-row clamp): unflip the value, compute the alignment fraction
and `from_start = round (align * page_size)`, look up the covering cell
(primary axis: `gtk_grid_view_get_cell_at_y`; cross axis: direct
column arithmetic on `column_width`), derive the pixel-exact alignment,
and re-add the orthogonal component of the current anchor. -/
def deriveAnchor (s : CbState) : Anchor :=
  let value : Int := if s.flipped then s.total_size - s.page_size - s.value0 else s.value0
  if s.isPrimary then
    let yalign : ℚ := (value : ℚ) / ((s.total_size : ℚ) - (s.page_size : ℚ))
    let from_start : Int := cround (yalign * (s.page_size : ℚ))
    match gtk_grid_view_get_cell_at_y s.n_columns s.unknown_row_height s.tree
        (value + from_start) with
    | some (pos, offset, height) =>
        let top := from_start - offset
        let bottom := top + height
        let ystart := startLadder top bottom from_start s.page_size
        { pos := pos + s.anchor_pos % s.n_columns
          xalign := s.anchor_xalign
          xstart := s.anchor_xstart
          yalign := ((if ystart then top else bottom : Int) : ℚ) / (s.page_size : ℚ)
          ystart := ystart }
    | none =>
        -- scrolled past the last cell: take the last row
        let pos := usub s.n_items 1
        let pos := pos - pos % s.n_columns
        { pos := pos + s.anchor_pos % s.n_columns
          xalign := s.anchor_xalign
          xstart := s.anchor_xstart
          yalign := 1
          ystart := false }
  else
    let xalign : ℚ := (value : ℚ) / ((s.total_size : ℚ) - (s.page_size : ℚ))
    let from_start : Int := cround (xalign * (s.page_size : ℚ))
    let pos : Nat := (⌊((value + from_start : Int) : ℚ) / s.column_width⌋).toNat
    let step :=
      if s.n_columns ≤ pos then
        -- scrolling to the end sets pos to exactly n_columns
        (s.n_columns - 1, (1 : ℚ), false)
      else
        let top : Int := ⌈s.column_width * (pos : ℚ)⌉ - value
        let bottom : Int := ⌈s.column_width * ((pos : ℚ) + 1)⌉ - value
        let xstart := startLadder top bottom from_start s.page_size
        (pos, ((if xstart then top else bottom : Int) : ℚ) / (s.page_size : ℚ), xstart)
    { pos := step.1 + (s.anchor_pos - s.anchor_pos % s.n_columns)
      xalign := step.2.1
      xstart := step.2.2
      yalign := s.anchor_yalign
      ystart := s.anchor_ystart }

/-- The trailing-row clamp of the callback (`if (pos >= n_items)`): the
derived position fell into the incomplete last row, so anchor the last
item, anchor to its trailing edge, and recompute the cross-axis
alignment directly from the opposite-axis store's value and page size. -/
def clampToLastItem (s : CbState) (a : Anchor) : Anchor :=
  if s.n_items ≤ a.pos then
    let pos := usub s.n_items 1
    { pos := pos
      xalign := ((((⌈s.column_width * (((pos % s.n_columns : Nat) : ℚ) + 1)⌉ : Int) : ℚ) -
          s.opp_value) / s.opp_page_size)
      xstart := false
      yalign := a.yalign
      ystart := a.ystart }
  else a

/-- `gtk_grid_view_adjustment_value_changed_cb`: derive the new anchor
from the changed store, then apply the trailing-row clamp; the result is
handed to `gtk_grid_view_set_anchor`. -/
def gtk_grid_view_adjustment_value_changed_cb (s : CbState) : Anchor :=
  clampToLastItem s (deriveAnchor s)

/-- C8: whenever the derived position falls beyond the last item
(`pos ≥ n_items`), the callback anchors position `n_items - 1`, clears
`xstart`, and recomputes the cross-axis alignment from the
opposite-axis store's value and page size as
`(ceil (column_width * (pos % n_columns + 1)) - opp_value) /
opp_page_size`, leaving the primary-axis alignment of the derivation
untouched. -/
theorem C8_clamp_to_last_item (s : CbState)
    (h1 : 1 ≤ s.n_items) (h2 : s.n_items < U32)
    (h3 : s.n_items ≤ (deriveAnchor s).pos) :
    gtk_grid_view_adjustment_value_changed_cb s =
      { pos := s.n_items - 1
        xalign := ((((⌈s.column_width * ((((s.n_items - 1) % s.n_columns : Nat) : ℚ) + 1)⌉ : Int) : ℚ) -
            s.opp_value) / s.opp_page_size)
        xstart := false
        yalign := (deriveAnchor s).yalign
        ystart := (deriveAnchor s).ystart } := by
  have husub : usub s.n_items 1 = s.n_items - 1 := by
    unfold usub U32 at *
    omega
  unfold gtk_grid_view_adjustment_value_changed_cb clampToLastItem
  rw [if_pos h3, husub]

/-- The concrete callback state of the witness: vertical primary axis
scrolled to the very end of `tree1` (5 items, 4 columns), with the
anchor sitting in column 3 — so the derived position 7 falls into the
incomplete last row. -/
def sW : CbState :=
  { isPrimary := true
    flipped := false
    value0 := 10
    total_size := 20
    page_size := 10
    anchor_pos := 3
    n_items := 5
    n_columns := 4
    unknown_row_height := 10
    column_width := 25
    tree := tree1
    anchor_xalign := 0
    anchor_xstart := true
    anchor_yalign := 0
    anchor_ystart := true
    opp_value := 5
    opp_page_size := 100 }

theorem deriveAnchor_sW_eq : deriveAnchor sW = ⟨7, 0, true, 1, false⟩ := by
  have hcell : gtk_grid_view_get_cell_at_y 4 10 tree1 20 = none := by decide
  have hu : usub 5 1 = 4 := by decide
  simp only [deriveAnchor, sW]
  norm_num [cround, hcell, hu]

/-- Closed instance of `C8_clamp_to_last_item` on `sW`. -/
theorem C8_clamp_to_last_item_witness :
    1 ≤ sW.n_items ∧ sW.n_items < U32 ∧ sW.n_items ≤ (deriveAnchor sW).pos ∧
    gtk_grid_view_adjustment_value_changed_cb sW =
      { pos := sW.n_items - 1
        xalign := ((((⌈sW.column_width * ((((sW.n_items - 1) % sW.n_columns : Nat) : ℚ) + 1)⌉ : Int) : ℚ) -
            sW.opp_value) / sW.opp_page_size)
        xstart := false
        yalign := (deriveAnchor sW).yalign
        ystart := (deriveAnchor sW).ystart } := by
  have hpos : sW.n_items ≤ (deriveAnchor sW).pos := by
    rw [deriveAnchor_sW_eq]
    decide
  exact ⟨by decide, by decide, hpos, C8_clamp_to_last_item sW (by decide) (by decide) hpos⟩

end GridView
